import Mathlib

set_option maxRecDepth 8192

/-!
# Verification of the ExoClassify front-end (src/static/js/starmap.js)

Shallow embedding of the two front-end components of the repository:
the `StarMap` sky-plot renderer and the `ExoClassifyApp` application
controller.  JavaScript numbers are modelled as exact rationals `ℚ`
(and as `ℝ` where `Math.log` is involved); a JavaScript value that can
be `undefined`/`NaN` is modelled as an `Option`; the DOM is modelled by
the strings / display actions the code writes into it; `fetch` results
are modelled as explicit outcome values fed to the handlers.
-/

namespace StarMapModel

/-- An exoplanet record as consumed by the renderer: the fields produced
by `generateSampleData` and read by `render`, `calculateSize`,
`getTooltipContent` and the statistics code. -/
structure Exoplanet where
  id : String
  name : String
  ra : ℚ
  dec : ℚ
  classification : String
  period : ℚ
  radius : ℚ
  temperature : ℚ
  depth : ℚ
  snr : ℚ
  magnitude : ℚ
deriving Repr, DecidableEq

/-- `this.colorScheme` — an object keyed by classification string; a key
lookup on a JavaScript object yields `undefined` (here `none`) for any
other key. -/
def colorScheme (c : String) : Option String :=
  if c = "Confirmed Exoplanet" then some "#00ff00"
  else if c = "Candidate" then some "#ffff00"
  else if c = "False Positive" then some "#ff4444"
  else none

/-- The `classificationMultiplier` object inside `calculateSize`. -/
def classificationMultiplier (c : String) : Option ℝ :=
  if c = "Confirmed Exoplanet" then some 1.5
  else if c = "Candidate" then some 1.2
  else if c = "False Positive" then some 0.8
  else none

/-- `StarMap.calculateSize`: `baseSize = Math.log(radius + 1) * 2` and
the returned value is `baseSize * classificationMultiplier[classification]`.
In JavaScript a missing multiplier gives `baseSize * undefined = NaN`,
modelled here as `none`. -/
noncomputable def calculateSize (e : Exoplanet) : Option ℝ :=
  (classificationMultiplier e.classification).map
    (fun m => Real.log ((e.radius : ℝ) + 1) * 2 * m)

/-- The `classifications` array in `generateSampleData`. -/
def classifications : List String :=
  ["Confirmed Exoplanet", "Candidate", "False Positive"]

/-- Indexing `classifications[k]` for an integer index, `undefined`
(modelled by a sentinel outside the enum) off the end. -/
def classificationAt (k : ℤ) : String :=
  if k = 0 then "Confirmed Exoplanet"
  else if k = 1 then "Candidate"
  else if k = 2 then "False Positive"
  else "undefined"

/-- One record pushed by iteration `i` of the loop in
`generateSampleData`.  `Math.random()` is modelled by a stream
`rand : ℕ → ℚ` of values in `[0,1)`; iteration `i` consumes the nine
values `rand (9*i) … rand (9*i+8)` in the order the object literal
evaluates them. -/
def sampleRecord (rand : ℕ → ℚ) (i : ℕ) : Exoplanet :=
  { id := "KOI-" ++ toString (1000 + i)
    name := "KOI-" ++ toString (1000 + i)
    ra := rand (9 * i) * 360
    dec := (rand (9 * i + 1) - 0.5) * 180
    classification := classificationAt ⌊rand (9 * i + 2) * 3⌋
    period := rand (9 * i + 3) * 100
    radius := rand (9 * i + 4) * 15
    temperature := 300 + rand (9 * i + 5) * 1700
    depth := rand (9 * i + 6) * 2000
    snr := rand (9 * i + 7) * 20
    magnitude := 8 + rand (9 * i + 8) * 7 }

/-- `StarMap.generateSampleData`: 100 records, `i = 0 … 99`. -/
def generateSampleData (rand : ℕ → ℚ) : List Exoplanet :=
  (List.range 100).map (sampleRecord rand)

/-- `StarMap.loadExoplanetData`: a successful fetch of `/api/exoplanets`
(`some records`) stores the parsed records; any failure of the fetch or
of `response.json()` (`none`) is caught and falls back to
`generateSampleData`. -/
def loadExoplanetData (fetched : Option (List Exoplanet)) (rand : ℕ → ℚ) :
    List Exoplanet :=
  match fetched with
  | some records => records
  | none => generateSampleData rand

/-- `d3.scaleLinear().domain([d0, d1]).range([r0, r1])` applied to `v`. -/
def scaleLinear (d0 d1 r0 r1 v : ℚ) : ℚ :=
  r0 + (v - d0) / (d1 - d0) * (r1 - r0)

/-- The margins set in the `StarMap` constructor. -/
def marginTop : ℚ := 20
def marginRight : ℚ := 20
def marginBottom : ℚ := 30
def marginLeft : ℚ := 40

/-- `this.xScale`: right ascension `[0,360]` to
`[margin.left, width - margin.right]`. -/
def xScale (width v : ℚ) : ℚ :=
  scaleLinear 0 360 marginLeft (width - marginRight) v

/-- `this.yScale`: declination `[-90,90]` to
`[height - margin.bottom, margin.top]`. -/
def yScale (height v : ℚ) : ℚ :=
  scaleLinear (-90) 90 (height - marginBottom) marginTop v

/-- A rendered marker: the bound datum together with its current
`opacity` attribute. -/
structure Marker where
  data : Exoplanet
  opacity : ℚ
deriving Repr, DecidableEq

/-- `StarMap.render` creates one circle per record with
`attr('opacity', 0.8)`. -/
def renderMarkers (records : List Exoplanet) : List Marker :=
  records.map (fun e => ⟨e, 0.8⟩)

/-- `StarMap.filterByClassification`: `"all"` transitions every marker
back to opacity `0.8`; any other value transitions matching markers to
`0.8` and the rest to `0.1`.  Markers are restyled in place — none are
added or removed and the bound data is untouched. -/
def filterByClassification (c : String) (ms : List Marker) : List Marker :=
  if c = "all" then
    ms.map (fun m => { m with opacity := 0.8 })
  else
    ms.map (fun m =>
      { m with opacity := if m.data.classification = c then 0.8 else 0.1 })

end StarMapModel

namespace AppModel

open StarMapModel

/-- JavaScript `v || dflt` for a possibly-absent string: `null`/missing
and the empty string are falsy. -/
def jsOrString (v : Option String) (dflt : String) : String :=
  match v with
  | some s => if s = "" then dflt else s
  | none => dflt

/-- JavaScript `Number.prototype.toFixed(d)`, idealized to exact
rational arithmetic: round to `d` decimal digits (half away from the
floor, as `round`) and print with zero-padded fraction. -/
def toFixed (d : ℕ) (q : ℚ) : String :=
  let n : ℤ := round (q * (10 : ℚ) ^ d)
  let sign := if n < 0 then "-" else ""
  let a := n.natAbs
  let ip := a / 10 ^ d
  let fr := a % 10 ^ d
  if d = 0 then sign ++ toString ip
  else
    let fs := toString fr
    sign ++ toString ip ++ "." ++ String.mk (List.replicate (d - fs.length) '0') ++ fs

/-- Payload of a `/api/classify` response as read by
`displayClassificationResult`.  `confidence` and the probability
percents are modelled as naturals (the integer percentages the UI
shows); `model_report` is `none` when the field is absent. -/
structure ClassifyResult where
  prediction : String
  confidence : ℕ
  probabilities : List (String × ℕ)
  model_report : Option String

/-- `Object.entries(result.probabilities).map(([label, p]) =>
label + ": " + p + "%").join(' / ')`. -/
def probabilitiesText (ps : List (String × ℕ)) : String :=
  String.intercalate " / " (ps.map (fun p => p.1 ++ ": " ++ toString p.2 ++ "%"))

/-- The innerHTML `displayClassificationResult` writes into the result
container (whitespace-only text between tags elided). -/
def classificationResultHtml (r : ClassifyResult) : String :=
  "<div class=\"card bg-light text-dark mb-3\"><div class=\"card-body\">" ++
  "<h5 class=\"card-title\">ML Prediction</h5><p class=\"card-text\">" ++
  "<strong>Class:</strong> <span class=\"text-primary\">" ++ r.prediction ++
  "</span><br><strong>Confidence:</strong> " ++ toString r.confidence ++
  "%<br><strong>Probabilities:</strong> " ++ probabilitiesText r.probabilities ++
  "</p></div></div>"

/-- The innerHTML `displayClassificationResult` writes into the
`model-report` container when `result.model_report` is truthy;
`none` when the field is absent or empty. -/
def modelReportHtml (r : ClassifyResult) : Option String :=
  match r.model_report with
  | some rep =>
    if rep = "" then none
    else some ("<div class=\"card bg-light text-dark\"><div class=\"card-body\">" ++
      "<h6 class=\"card-title\">Model Training Report</h6><pre class=\"small\">" ++ rep ++
      "</pre><small class=\"text-muted\">This report shows the accuracy and reliability " ++
      "of the ML model based on training data.</small></div></div>")
  | none => none

/-- Payload of a `/api/validate` response as read by
`displayValidationCards`.  The two numeric metrics are only ever
interpolated verbatim into the template, so they are modelled as the
strings they render as. -/
structure ValidateResult where
  contamination_level : String
  color : String
  summary : String
  distance_to_moon_deg : String
  bright_stars_estimate : String
  recommendations : List String
  note : String

/-- The `colorMap` object in `displayValidationCards`. -/
def colorMap (c : String) : Option String :=
  if c = "success" then some "bg-success text-white"
  else if c = "warning" then some "bg-warning text-dark"
  else if c = "danger" then some "bg-danger text-white"
  else none

/-- The innerHTML `displayValidationCards` writes into the `results`
container (whitespace-only text between tags elided). -/
def validationCardsHtml (r : ValidateResult) : String :=
  "<div class=\"card mb-3 " ++ jsOrString (colorMap r.color) "" ++ "\">" ++
  "<div class=\"card-body\"><h5 class=\"card-title\">Nivel de contaminación: <strong>" ++
  r.contamination_level.toUpper ++ "</strong></h5><p class=\"card-text\">" ++ r.summary ++
  "</p></div></div><div class=\"card mb-3\"><div class=\"card-body\">" ++
  "<h6 class=\"card-title\">Métricas calculadas</h6><ul>" ++
  "<li><strong>Distancia angular a la Luna:</strong> " ++ r.distance_to_moon_deg ++ "°</li>" ++
  "<li><strong>Estrellas brillantes estimadas en el campo:</strong> " ++
  r.bright_stars_estimate ++ "</li></ul></div></div>" ++
  "<div class=\"card mb-3\"><div class=\"card-body\">" ++
  "<h6 class=\"card-title\">Recomendaciones</h6><ul>" ++
  String.join (r.recommendations.map (fun rec => "<li>" ++ rec ++ "</li>")) ++
  "</ul><small class=\"text-muted\">" ++ r.note ++ "</small></div></div>"

/-- Payload of a `/api/characterize` response as read by
`displayCharacterizationResult`. -/
structure CharacterizeResult where
  teq : ℚ
  planet_type : String
  habitable_zone : String
  transit_probability : ℚ
  surface_gravity : ℚ
  escape_velocity : ℚ
  habitability_score : ℚ

/-- The innerHTML `displayCharacterizationResult` writes into the
`characterize-result` container (whitespace-only text between tags
elided). -/
def characterizationResultHtml (r : CharacterizeResult) : String :=
  "<div><h4>Exoplanet Physical Characterization</h4><ul class=\"list-group mb-3\">" ++
  "<li class=\"list-group-item\"><strong>Equilibrium Temperature:</strong> " ++
  toFixed 1 r.teq ++ " K</li>" ++
  "<li class=\"list-group-item\"><strong>Planet Type:</strong> " ++ r.planet_type ++ "</li>" ++
  "<li class=\"list-group-item\"><strong>Habitable Zone:</strong> " ++
  r.habitable_zone ++ "</li>" ++
  "<li class=\"list-group-item\"><strong>Transit Probability:</strong> " ++
  toFixed 2 (r.transit_probability * 100) ++ "%</li>" ++
  "<li class=\"list-group-item\"><strong>Surface Gravity:</strong> " ++
  toFixed 2 r.surface_gravity ++ " m/s²</li>" ++
  "<li class=\"list-group-item\"><strong>Escape Velocity:</strong> " ++
  toFixed 2 r.escape_velocity ++ " km/s</li>" ++
  "<li class=\"list-group-item\"><strong>Habitability Score:</strong> " ++
  toFixed 1 (r.habitability_score * 100) ++ "%</li></ul>" ++
  "<div><small class=\"text-muted\">These metrics are estimated from the input parameters. " ++
  "The habitability score is a simple indicator and not a guarantee of actual " ++
  "habitability.</small></div></div>"

/-- The parsed JSON of an HTTP response: its `ok` flag, the optional
`error` field of the body, and the payload fields the success path
reads. -/
structure HttpResponse (α : Type) where
  ok : Bool
  error : Option String
  body : α

/-- Outcome of one `fetch` + `response.json()`: either a thrown error
(network failure or malformed JSON, carrying the runtime error message)
or a parsed response. -/
inductive FetchOutcome (α : Type) where
  | netError (msg : String)
  | response (r : HttpResponse α)

/-- What a handler does to the DOM at the end: write a result panel or
an error panel (`displayError`) into a container. -/
inductive DisplayAction where
  | showResult (containerId html : String)
  | showError (containerId msg : String)
deriving Repr, DecidableEq

/-- The `try` block shared by the three submission handlers: a thrown
fetch/parse error propagates; a non-ok response throws
`result.error || generic`; an ok response renders the result panel. -/
def handlerBody {α : Type} (containerId generic : String) (render : α → String)
    (o : FetchOutcome α) : Except String DisplayAction :=
  match o with
  | .netError m => .error m
  | .response r =>
    if r.ok then .ok (.showResult containerId (render r.body))
    else .error (jsOrString r.error generic)

/-- The `catch` around the `try` block: any thrown error message is
rendered by `displayError` into the handler's container — nothing
propagates out of the handler. -/
def runHandler {α : Type} (containerId generic : String) (render : α → String)
    (o : FetchOutcome α) : DisplayAction :=
  match handlerBody containerId generic render o with
  | .ok a => a
  | .error m => .showError containerId m

/-- `ExoClassifyApp.handleClassification`. -/
def handleClassification (o : FetchOutcome ClassifyResult) : DisplayAction :=
  runHandler "classify-result" "Error en clasificación" classificationResultHtml o

/-- `ExoClassifyApp.handleValidation`. -/
def handleValidation (o : FetchOutcome ValidateResult) : DisplayAction :=
  runHandler "results" "Error en validación" validationCardsHtml o

/-- `ExoClassifyApp.handleCharacterization`. -/
def handleCharacterization (o : FetchOutcome CharacterizeResult) : DisplayAction :=
  runHandler "characterize-result" "Error en caracterización" characterizationResultHtml o

/-- An outcome on which the claim's error path triggers: a thrown
fetch/parse error or a non-success HTTP response. -/
def FetchOutcome.isFailure {α : Type} : FetchOutcome α → Prop
  | .netError _ => True
  | .response r => r.ok = false

/-- The statistics object computed by
`ExoClassifyApp.loadExoplanetStatistics` from the fetched record list. -/
structure Stats where
  total : ℕ
  confirmed : ℕ
  candidates : ℕ
  falsePositives : ℕ
deriving Repr, DecidableEq

/-- `loadExoplanetStatistics`: total is the array length and each
category count is a `filter(...).length` on the classification string. -/
def loadExoplanetStatistics (exoplanets : List Exoplanet) : Stats :=
  { total := exoplanets.length
    confirmed :=
      (exoplanets.filter (fun e => e.classification = "Confirmed Exoplanet")).length
    candidates :=
      (exoplanets.filter (fun e => e.classification = "Candidate")).length
    falsePositives :=
      (exoplanets.filter (fun e => e.classification = "False Positive")).length }

/-- The theme applied by the `DOMContentLoaded` handler:
`localStorage.getItem('exoclassify-theme') || 'dark'`, where `storage`
models the persisted key/value store (`getItem` is `none` for a missing
key).  This read is the only access to persistent storage in the
source. -/
def pageLoadTheme (storage : String → Option String) : String :=
  jsOrString (storage "exoclassify-theme") "dark"

/-- `needle` occurs as literal text inside `hay`. -/
def containsText (needle hay : String) : Prop :=
  ∃ s t, hay = s ++ needle ++ t

/-- A concrete `/api/validate` payload. -/
def sampleValidate : ValidateResult :=
  { contamination_level := "low", color := "success", summary := "ok",
    distance_to_moon_deg := "12.3", bright_stars_estimate := "4",
    recommendations := ["observe"], note := "estimate" }

/-- A concrete `/api/characterize` payload. -/
def sampleCharacterize : CharacterizeResult :=
  { teq := 288, planet_type := "rocky", habitable_zone := "yes",
    transit_probability := 1/100, surface_gravity := 98/10,
    escape_velocity := 112/10, habitability_score := 7/10 }

end AppModel

namespace StarMapModel

/-- A concrete record whose classification lies outside the enumerated
set. -/
def unknownRec : Exoplanet :=
  { id := "X-1", name := "X-1", ra := 10, dec := 20,
    classification := "Unknown", period := 5, radius := 2,
    temperature := 500, depth := 100, snr := 7, magnitude := 9 }

/-- A concrete confirmed record of radius 1. -/
def confRec : Exoplanet :=
  { id := "K-1", name := "K-1", ra := 10, dec := 20,
    classification := "Confirmed Exoplanet", period := 10, radius := 1,
    temperature := 500, depth := 100, snr := 7, magnitude := 9 }

/-- A confirmed record of radius 2. -/
def confRec2 : Exoplanet := { confRec with id := "K-2", name := "K-2", radius := 2 }

/-- A candidate record of radius 1. -/
def candRec : Exoplanet := { confRec with id := "K-3", classification := "Candidate" }

/-- A false-positive record of radius 1. -/
def fpRec : Exoplanet := { confRec with id := "K-4", classification := "False Positive" }

/-- C1: the claim as stated is false on the code.  For the concrete
record `unknownRec`, whose classification is outside the enumerated
set, the colour lookup is `undefined` (`none`) and `calculateSize` is
`NaN` (`none`): the source guards against neither. -/
theorem C1_claim_counterexample :
    ¬ (∀ e : Exoplanet, e.classification ∉ classifications →
        colorScheme e.classification ≠ none ∧ calculateSize e ≠ none) := by
  intro h
  have hmem : unknownRec.classification ∉ classifications := by decide
  have hc : colorScheme unknownRec.classification = none := by
    simp [colorScheme, unknownRec]
  exact (h unknownRec hmem).1 hc

/-- C1 (amended): for every record whose classification is not one of
the three enumerated values, the marker styling is undefined — the fill
colour lookup yields `undefined` and the computed radius is `NaN`; the
implementation performs no explicit guard. -/
theorem C1_amended_undefined_styling (e : Exoplanet)
    (h : e.classification ∉ classifications) :
    colorScheme e.classification = none ∧ calculateSize e = none := by
  simp only [classifications, List.mem_cons, List.not_mem_nil, or_false] at h
  push_neg at h
  obtain ⟨h1, h2, h3⟩ := h
  refine ⟨?_, ?_⟩
  · simp [colorScheme, h1, h2, h3]
  · simp [calculateSize, classificationMultiplier, h1, h2, h3]

/-- Witness for the amended C1 theorem at the concrete record
`unknownRec`. -/
theorem C1_amended_witness :
    colorScheme unknownRec.classification = none ∧ calculateSize unknownRec = none :=
  C1_amended_undefined_styling unknownRec (by decide)

/-- C4: `filterByClassification "all"` sets every marker to the full
opacity `0.8` no matter which sequence of prior filter calls was
applied to the rendered markers; a specific classification value keeps
matching markers at `0.8` and dims the rest to `0.1`; and any filter
call leaves the marker list — count and bound records — unchanged
(nothing is removed or re-fetched). -/
theorem C4_filter_opacity (records : List Exoplanet) (prior : List String)
    (c : String) (hc : c ≠ "all") :
    (∀ m ∈ filterByClassification "all"
        (prior.foldl (fun s v => filterByClassification v s) (renderMarkers records)),
      m.opacity = 0.8) ∧
    (∀ (v : String) (st : List Marker),
      (filterByClassification v st).map Marker.data = st.map Marker.data) ∧
    (∀ (st : List Marker), ∀ m ∈ filterByClassification c st,
      m.opacity = if m.data.classification = c then 0.8 else 0.1) := by
  refine ⟨?_, ?_, ?_⟩
  · intro m hm
    unfold filterByClassification at hm
    rw [if_pos rfl] at hm
    obtain ⟨m', _, rfl⟩ := List.mem_map.1 hm
    rfl
  · intro v st
    by_cases hv : v = "all" <;>
      simp [filterByClassification, hv, List.map_map, Function.comp]
  · intro st m hm
    unfold filterByClassification at hm
    rw [if_neg hc] at hm
    obtain ⟨m', _, rfl⟩ := List.mem_map.1 hm
    rfl

/-- Witness for C4 at the empty render state and the concrete filter
value `"Confirmed Exoplanet"`. -/
theorem C4_filter_opacity_witness :
    (∀ m ∈ filterByClassification "all"
        (([] : List String).foldl (fun s v => filterByClassification v s)
          (renderMarkers [])),
      m.opacity = 0.8) ∧
    (∀ (v : String) (st : List Marker),
      (filterByClassification v st).map Marker.data = st.map Marker.data) ∧
    (∀ (st : List Marker), ∀ m ∈ filterByClassification "Confirmed Exoplanet" st,
      m.opacity = if m.data.classification = "Confirmed Exoplanet" then 0.8 else 0.1) :=
  C4_filter_opacity [] [] "Confirmed Exoplanet" (by decide)

/-- `calculateSize` at a record whose multiplier lookup succeeds. -/
lemma calculateSize_of_multiplier (e : Exoplanet) (m : ℝ)
    (hm : classificationMultiplier e.classification = some m) :
    calculateSize e = some (Real.log ((e.radius : ℝ) + 1) * 2 * m) := by
  simp [calculateSize, hm]

/-- The size expression is strictly increasing in the radius for a
fixed positive multiplier. -/
lemma size_lt_size_of_radius_lt {r1 r2 : ℚ} (m : ℝ) (hm : 0 < m)
    (h0 : 0 < r1) (h12 : r1 < r2) :
    Real.log ((r1 : ℝ) + 1) * 2 * m < Real.log ((r2 : ℝ) + 1) * 2 * m := by
  have h0' : (0 : ℝ) < (r1 : ℝ) := by exact_mod_cast h0
  have h12' : (r1 : ℝ) < (r2 : ℝ) := by exact_mod_cast h12
  have hlog : Real.log ((r1 : ℝ) + 1) < Real.log ((r2 : ℝ) + 1) :=
    Real.log_lt_log (by linarith) (by linarith)
  have h2 := mul_lt_mul_of_pos_right hlog (two_pos (α := ℝ))
  exact mul_lt_mul_of_pos_right h2 hm

/-- For a fixed positive radius the size expression is strictly
increasing in the multiplier. -/
lemma size_lt_size_of_mult_lt {r : ℚ} (h0 : 0 < r) {m1 m2 : ℝ}
    (h12 : m1 < m2) :
    Real.log ((r : ℝ) + 1) * 2 * m1 < Real.log ((r : ℝ) + 1) * 2 * m2 := by
  have h0' : (0 : ℝ) < (r : ℝ) := by exact_mod_cast h0
  have hlog : 0 < Real.log ((r : ℝ) + 1) := Real.log_pos (by linarith)
  exact mul_lt_mul_of_pos_left h12 (by linarith)

/-- C2: for a record with positive radius, the marker radius computed
by `calculateSize` is `log(radius + 1) × 2 × m` with `m = 1.5` for a
confirmed record, `1.2` for a candidate and `0.8` for a false
positive. -/
theorem C2_size_formula (e : Exoplanet) (_hr : 0 < e.radius) :
    (e.classification = "Confirmed Exoplanet" →
      calculateSize e = some (Real.log ((e.radius : ℝ) + 1) * 2 * 1.5)) ∧
    (e.classification = "Candidate" →
      calculateSize e = some (Real.log ((e.radius : ℝ) + 1) * 2 * 1.2)) ∧
    (e.classification = "False Positive" →
      calculateSize e = some (Real.log ((e.radius : ℝ) + 1) * 2 * 0.8)) := by
  refine ⟨fun hc => ?_, fun hc => ?_, fun hc => ?_⟩ <;>
    exact calculateSize_of_multiplier e _ (by simp [classificationMultiplier, hc])

/-- Witness for C2 at the confirmed record `confRec`. -/
theorem C2_size_formula_witness :
    calculateSize confRec = some (Real.log ((confRec.radius : ℝ) + 1) * 2 * 1.5) :=
  (C2_size_formula confRec (by decide)).1 rfl

/-- C3: for a fixed in-enum classification the marker radius is
strictly increasing in the planet radius, and at a fixed positive
radius a confirmed record gets a strictly larger marker than a
candidate, which gets a strictly larger marker than a false
positive. -/
theorem C3_size_monotonicity :
    (∀ e1 e2 : Exoplanet, e1.classification ∈ classifications →
      e2.classification = e1.classification →
      0 < e1.radius → e1.radius < e2.radius →
      ∃ s1 s2, calculateSize e1 = some s1 ∧ calculateSize e2 = some s2 ∧ s1 < s2) ∧
    (∀ ec ea ef : Exoplanet, ec.classification = "Confirmed Exoplanet" →
      ea.classification = "Candidate" → ef.classification = "False Positive" →
      0 < ec.radius → ea.radius = ec.radius → ef.radius = ec.radius →
      ∃ sc sa sf, calculateSize ec = some sc ∧ calculateSize ea = some sa ∧
        calculateSize ef = some sf ∧ sf < sa ∧ sa < sc) := by
  constructor
  · intro e1 e2 hmem heq hr hlt
    simp only [classifications, List.mem_cons, List.not_mem_nil, or_false] at hmem
    rcases hmem with h | h | h
    · exact ⟨_, _,
        calculateSize_of_multiplier e1 1.5 (by simp [classificationMultiplier, h]),
        calculateSize_of_multiplier e2 1.5 (by simp [classificationMultiplier, heq, h]),
        size_lt_size_of_radius_lt 1.5 (by norm_num) hr hlt⟩
    · exact ⟨_, _,
        calculateSize_of_multiplier e1 1.2 (by simp [classificationMultiplier, h]),
        calculateSize_of_multiplier e2 1.2 (by simp [classificationMultiplier, heq, h]),
        size_lt_size_of_radius_lt 1.2 (by norm_num) hr hlt⟩
    · exact ⟨_, _,
        calculateSize_of_multiplier e1 0.8 (by simp [classificationMultiplier, h]),
        calculateSize_of_multiplier e2 0.8 (by simp [classificationMultiplier, heq, h]),
        size_lt_size_of_radius_lt 0.8 (by norm_num) hr hlt⟩
  · intro ec ea ef hc ha hf hr hra hrf
    refine ⟨_, _, _,
      calculateSize_of_multiplier ec 1.5 (by simp [classificationMultiplier, hc]),
      calculateSize_of_multiplier ea 1.2 (by simp [classificationMultiplier, ha]),
      calculateSize_of_multiplier ef 0.8 (by simp [classificationMultiplier, hf]),
      ?_, ?_⟩
    · rw [hra, hrf]
      exact size_lt_size_of_mult_lt hr (by norm_num)
    · rw [hra]
      exact size_lt_size_of_mult_lt hr (by norm_num)

/-- Witness for C3 at the concrete records `confRec`, `confRec2`,
`candRec`, `fpRec`. -/
theorem C3_size_monotonicity_witness :
    (∃ s1 s2, calculateSize confRec = some s1 ∧ calculateSize confRec2 = some s2 ∧
      s1 < s2) ∧
    (∃ sc sa sf, calculateSize confRec = some sc ∧ calculateSize candRec = some sa ∧
      calculateSize fpRec = some sf ∧ sf < sa ∧ sa < sc) :=
  ⟨C3_size_monotonicity.1 confRec confRec2 (by decide) rfl (by decide) (by decide),
   C3_size_monotonicity.2 confRec candRec fpRec rfl rfl rfl (by decide) rfl rfl⟩

/-- C5: when the `/api/exoplanets` fetch fails (or its body is
malformed), the renderer's data list is exactly the 100 generated
sample records, and every generated record has a classification in the
three-value enum, `ra ∈ [0, 360)` and `dec ∈ [-90, 90]`.
`Math.random()` is modelled by an arbitrary stream of values in
`[0, 1)`. -/
theorem C5_sample_fallback (rand : ℕ → ℚ)
    (hrand : ∀ i, 0 ≤ rand i ∧ rand i < 1) :
    (loadExoplanetData none rand).length = 100 ∧
    ∀ e ∈ loadExoplanetData none rand,
      e.classification ∈ classifications ∧
      0 ≤ e.ra ∧ e.ra < 360 ∧ -90 ≤ e.dec ∧ e.dec ≤ 90 := by
  constructor
  · simp [loadExoplanetData, generateSampleData]
  · intro e he
    simp only [loadExoplanetData, generateSampleData, List.mem_map] at he
    obtain ⟨i, _, rfl⟩ := he
    have h2 := hrand (9 * i + 2)
    have hra := hrand (9 * i)
    have hdec := hrand (9 * i + 1)
    refine ⟨?_, ?_, ?_, ?_, ?_⟩
    · show classificationAt ⌊rand (9 * i + 2) * 3⌋ ∈ classifications
      have h0 : (0 : ℤ) ≤ ⌊rand (9 * i + 2) * 3⌋ :=
        Int.floor_nonneg.2 (by nlinarith [h2.1])
      have h3 : ⌊rand (9 * i + 2) * 3⌋ < 3 :=
        Int.floor_lt.2 (by push_cast; nlinarith [h2.2])
      have : ⌊rand (9 * i + 2) * 3⌋ = 0 ∨ ⌊rand (9 * i + 2) * 3⌋ = 1 ∨
          ⌊rand (9 * i + 2) * 3⌋ = 2 := by omega
      rcases this with h | h | h <;> simp [classificationAt, classifications, h]
    · show 0 ≤ rand (9 * i) * 360
      nlinarith [hra.1]
    · show rand (9 * i) * 360 < 360
      nlinarith [hra.2]
    · show -90 ≤ (rand (9 * i + 1) - 0.5) * 180
      nlinarith [hdec.1]
    · show (rand (9 * i + 1) - 0.5) * 180 ≤ 90
      nlinarith [hdec.2]

/-- Witness for C5 at the constant random stream `1/2`. -/
theorem C5_sample_fallback_witness :
    (loadExoplanetData none (fun _ => 1/2)).length = 100 ∧
    ∀ e ∈ loadExoplanetData none (fun _ => 1/2),
      e.classification ∈ classifications ∧
      0 ≤ e.ra ∧ e.ra < 360 ∧ -90 ≤ e.dec ∧ e.dec ≤ 90 :=
  C5_sample_fallback (fun _ => 1/2) (fun _ => by norm_num)

/-- C6: the two scales are the stated linear maps — right ascension 0
lands on the left margin and 360 on `width - right margin`; declination
−90 lands on `height - bottom margin` and +90 on the top margin, so
(whenever the viewport is taller than the two vertical margins) the
vertical axis is inverted: +90 is strictly above −90. -/
theorem C6_scales (width height : ℚ)
    (h : marginTop + marginBottom < height) :
    xScale width 0 = marginLeft ∧
    xScale width 360 = width - marginRight ∧
    yScale height (-90) = height - marginBottom ∧
    yScale height 90 = marginTop ∧
    yScale height 90 < yScale height (-90) := by
  simp only [xScale, yScale, scaleLinear, marginTop, marginRight, marginBottom,
    marginLeft] at *
  norm_num
  linarith

/-- Witness for C6 at the constructor's default 800×600 viewport. -/
theorem C6_scales_witness :
    xScale 800 0 = marginLeft ∧
    xScale 800 360 = 800 - marginRight ∧
    yScale 600 (-90) = 600 - marginBottom ∧
    yScale 600 90 = marginTop ∧
    yScale 600 90 < yScale 600 (-90) :=
  C6_scales 800 600 (by norm_num [marginTop, marginBottom])

end StarMapModel

namespace AppModel

/-- C9: the page-load theme is a pure function of the single fixed
storage key `exoclassify-theme` (no other persisted state is read), and
when nothing is stored under that key the applied theme is `"dark"`. -/
theorem C9_theme_default (storage : String → Option String)
    (h : storage "exoclassify-theme" = none) :
    pageLoadTheme storage = "dark" ∧
    (∀ storage' : String → Option String,
      storage' "exoclassify-theme" = storage "exoclassify-theme" →
      pageLoadTheme storage' = pageLoadTheme storage) := by
  refine ⟨?_, ?_⟩
  · simp [pageLoadTheme, jsOrString, h]
  · intro storage' h'
    simp [pageLoadTheme, h']

/-- Witness for C9 at the empty storage. -/
theorem C9_theme_default_witness :
    pageLoadTheme (fun _ => none) = "dark" ∧
    (∀ storage' : String → Option String,
      storage' "exoclassify-theme" = (fun _ => (none : Option String)) "exoclassify-theme" →
      pageLoadTheme storage' = pageLoadTheme (fun _ => none)) :=
  C9_theme_default (fun _ => none) rfl

open StarMapModel in
/-- The three per-classification filter counts never exceed the list
length: the three classification labels are mutually exclusive, so each
record is counted at most once. -/
lemma filter_counts_le_length (l : List Exoplanet) :
    (l.filter (fun e => e.classification = "Confirmed Exoplanet")).length +
    (l.filter (fun e => e.classification = "Candidate")).length +
    (l.filter (fun e => e.classification = "False Positive")).length ≤ l.length := by
  induction l with
  | nil => simp
  | cons a t ih =>
    by_cases h1 : a.classification = "Confirmed Exoplanet"
    · have h2 : ¬ a.classification = "Candidate" := by simp [h1]
      have h3 : ¬ a.classification = "False Positive" := by simp [h1]
      simp [List.filter_cons, h1, h2, h3]
      omega
    · by_cases h2 : a.classification = "Candidate"
      · have h3 : ¬ a.classification = "False Positive" := by simp [h2]
        simp [List.filter_cons, h1, h2, h3]
        omega
      · by_cases h3 : a.classification = "False Positive"
        · simp [List.filter_cons, h1, h2, h3]
          omega
        · simp [List.filter_cons, h1, h2, h3]
          omega

open StarMapModel in
/-- The three per-classification filter counts sum to the list length
exactly when every record's classification is one of the three
enumerated labels. -/
lemma filter_counts_sum_iff (l : List Exoplanet) :
    ((l.filter (fun e => e.classification = "Confirmed Exoplanet")).length +
    (l.filter (fun e => e.classification = "Candidate")).length +
    (l.filter (fun e => e.classification = "False Positive")).length = l.length ↔
    ∀ e ∈ l, e.classification ∈ classifications) := by
  induction l with
  | nil => simp
  | cons a t ih =>
    have hle := filter_counts_le_length t
    rw [List.forall_mem_cons]
    by_cases h1 : a.classification = "Confirmed Exoplanet"
    · have h2 : ¬ a.classification = "Candidate" := by simp [h1]
      have h3 : ¬ a.classification = "False Positive" := by simp [h1]
      have ha : ("Confirmed Exoplanet" : String) ∈ classifications := by
        simp [classifications]
      simp [List.filter_cons, h1, h2, h3, ha]
      rw [← ih]
      omega
    · by_cases h2 : a.classification = "Candidate"
      · have h3 : ¬ a.classification = "False Positive" := by simp [h2]
        have ha : ("Candidate" : String) ∈ classifications := by simp [classifications]
        simp [List.filter_cons, h1, h2, h3, ha]
        rw [← ih]
        omega
      · by_cases h3 : a.classification = "False Positive"
        · have ha : ("False Positive" : String) ∈ classifications := by
            simp [classifications]
          simp [List.filter_cons, h1, h2, h3, ha]
          rw [← ih]
          omega
        · have ha : a.classification ∉ classifications := by
            simp [classifications, h1, h2, h3]
          simp [List.filter_cons, h1, h2, h3]
          constructor
          · intro h
            exact absurd h (by omega)
          · intro h
            exact absurd h.1 ha

open StarMapModel in
/-- C10: for every fetched record list, the statistics total is the
list length, each per-classification count is the number of records
bearing exactly that label, and the three counts sum to the total
precisely when every record's classification is one of the three
enumerated values — a record with any other classification is counted
in the total but in none of the three categories. -/
theorem C10_statistics_counts (l : List Exoplanet) :
    (loadExoplanetStatistics l).total = l.length ∧
    (loadExoplanetStatistics l).confirmed =
      l.countP (fun e => e.classification = "Confirmed Exoplanet") ∧
    (loadExoplanetStatistics l).candidates =
      l.countP (fun e => e.classification = "Candidate") ∧
    (loadExoplanetStatistics l).falsePositives =
      l.countP (fun e => e.classification = "False Positive") ∧
    ((loadExoplanetStatistics l).confirmed + (loadExoplanetStatistics l).candidates +
        (loadExoplanetStatistics l).falsePositives = (loadExoplanetStatistics l).total ↔
      ∀ e ∈ l, e.classification ∈ classifications) := by
  refine ⟨rfl, ?_, ?_, ?_, ?_⟩
  · rw [List.countP_eq_length_filter]; rfl
  · rw [List.countP_eq_length_filter]; rfl
  · rw [List.countP_eq_length_filter]; rfl
  · exact filter_counts_sum_iff l

/-- C7: for each of the three submission handlers, every failure — a
thrown fetch/parse error or a non-success HTTP response — renders an
inline error panel in that handler's own output region and nothing
propagates out (the handlers are total functions into display actions).
The panel message on a non-success response is the server-supplied
`error` string when that string is present and non-empty, and the
handler's fixed generic message otherwise; on a thrown error it is the
runtime error's own message. -/
theorem C7_failure_error_panels :
    (∀ m : String,
      handleClassification (.netError m) = .showError "classify-result" m) ∧
    (∀ r : HttpResponse ClassifyResult, r.ok = false →
      handleClassification (.response r) =
        .showError "classify-result" (jsOrString r.error "Error en clasificación")) ∧
    (∀ m : String, handleValidation (.netError m) = .showError "results" m) ∧
    (∀ r : HttpResponse ValidateResult, r.ok = false →
      handleValidation (.response r) =
        .showError "results" (jsOrString r.error "Error en validación")) ∧
    (∀ m : String,
      handleCharacterization (.netError m) = .showError "characterize-result" m) ∧
    (∀ r : HttpResponse CharacterizeResult, r.ok = false →
      handleCharacterization (.response r) =
        .showError "characterize-result" (jsOrString r.error "Error en caracterización")) ∧
    (∀ g s : String, s ≠ "" → jsOrString (some s) g = s) ∧
    (∀ g : String, jsOrString none g = g) ∧
    (∀ g : String, jsOrString (some "") g = g) := by
  refine ⟨fun m => rfl, ?_, fun m => rfl, ?_, fun m => rfl, ?_, ?_, fun g => rfl,
    fun g => rfl⟩
  · intro r hr
    simp [handleClassification, runHandler, handlerBody, hr]
  · intro r hr
    simp [handleValidation, runHandler, handlerBody, hr]
  · intro r hr
    simp [handleCharacterization, runHandler, handlerBody, hr]
  · intro g s hs
    simp [jsOrString, hs]

/-- Witness for C7: a network failure of the classify handler, a
non-success validate response carrying a server error string, and a
non-success characterize response without one. -/
theorem C7_failure_error_panels_witness :
    handleClassification (.netError "Failed to fetch") =
      .showError "classify-result" "Failed to fetch" ∧
    handleValidation (.response ⟨false, some "bad request", sampleValidate⟩) =
      .showError "results" "bad request" ∧
    handleCharacterization (.response ⟨false, none, sampleCharacterize⟩) =
      .showError "characterize-result" "Error en caracterización" := by
  obtain ⟨h1, h2, h3, h4, h5, h6, h7, h8, h9⟩ := C7_failure_error_panels
  refine ⟨h1 "Failed to fetch", ?_, ?_⟩
  · simpa [jsOrString] using h4 ⟨false, some "bad request", sampleValidate⟩ rfl
  · simpa [jsOrString] using h6 ⟨false, none, sampleCharacterize⟩ rfl

/-- A substring of `a` is a substring of `a ++ b`. -/
lemma containsText_append_of_left {n a : String} (h : containsText n a)
    (b : String) : containsText n (a ++ b) := by
  obtain ⟨s, t, rfl⟩ := h
  exact ⟨s, t ++ b, by rw [String.append_assoc]⟩

/-- C8: a success response of the classify endpoint with prediction
`"Confirmed Exoplanet"` and confidence `92` makes the handler render
the result panel into `classify-result`, and that panel's HTML contains
the literal texts `"92%"` and `"Confirmed Exoplanet"` — for any
probabilities object and any model report in the payload. -/
theorem C8_classify_success_panel (probs : List (String × ℕ)) (rep : Option String) :
    handleClassification
        (.response ⟨true, none, ⟨"Confirmed Exoplanet", 92, probs, rep⟩⟩) =
      .showResult "classify-result"
        (classificationResultHtml ⟨"Confirmed Exoplanet", 92, probs, rep⟩) ∧
    containsText "92%"
      (classificationResultHtml ⟨"Confirmed Exoplanet", 92, probs, rep⟩) ∧
    containsText "Confirmed Exoplanet"
      (classificationResultHtml ⟨"Confirmed Exoplanet", 92, probs, rep⟩) := by
  have hB92 : containsText "92%"
      ("<div class=\"card bg-light text-dark mb-3\"><div class=\"card-body\">" ++
       "<h5 class=\"card-title\">ML Prediction</h5><p class=\"card-text\">" ++
       "<strong>Class:</strong> <span class=\"text-primary\">" ++ "Confirmed Exoplanet" ++
       "</span><br><strong>Confidence:</strong> " ++ toString (92 : ℕ) ++
       "%<br><strong>Probabilities:</strong> ") :=
    ⟨"<div class=\"card bg-light text-dark mb-3\"><div class=\"card-body\">" ++
     "<h5 class=\"card-title\">ML Prediction</h5><p class=\"card-text\">" ++
     "<strong>Class:</strong> <span class=\"text-primary\">" ++ "Confirmed Exoplanet" ++
     "</span><br><strong>Confidence:</strong> ",
     "<br><strong>Probabilities:</strong> ", by decide⟩
  have hBpred : containsText "Confirmed Exoplanet"
      ("<div class=\"card bg-light text-dark mb-3\"><div class=\"card-body\">" ++
       "<h5 class=\"card-title\">ML Prediction</h5><p class=\"card-text\">" ++
       "<strong>Class:</strong> <span class=\"text-primary\">" ++ "Confirmed Exoplanet" ++
       "</span><br><strong>Confidence:</strong> " ++ toString (92 : ℕ) ++
       "%<br><strong>Probabilities:</strong> ") :=
    ⟨"<div class=\"card bg-light text-dark mb-3\"><div class=\"card-body\">" ++
     "<h5 class=\"card-title\">ML Prediction</h5><p class=\"card-text\">" ++
     "<strong>Class:</strong> <span class=\"text-primary\">",
     "</span><br><strong>Confidence:</strong> " ++ toString (92 : ℕ) ++
     "%<br><strong>Probabilities:</strong> ", by decide⟩
  refine ⟨rfl, ?_, ?_⟩
  · exact containsText_append_of_left (containsText_append_of_left hB92 _) _
  · exact containsText_append_of_left (containsText_append_of_left hBpred _) _

end AppModel
